import Mathlib

/-!
Shallow embedding of `src/video_stats.py`, a small YouTube ELT pipeline:

* `get_playlist_id`  — Channel Resolver: one request to the channels endpoint,
  reads `data["items"][0]["contentDetails"]["relatedPlaylists"]["uploads"]`.
* `get_video_ids`    — Collection Enumerator: while-loop over playlistItems
  pages driven by `nextPageToken`.
* `extract_video_data` — Metadata Extractor: batches ids by 50 (`batch_list`),
  one videos-endpoint request per batch, builds one record dict per item.
* `save_to_json`     — Persistence Writer: writes one dated JSON file.

Remote HTTP interactions are modelled by explicit fetch functions passed in as
parameters: a fetch returns `Except PyErr <parsed response>` where
`PyErr.remote` stands for `requests.exceptions.RequestException` (raised by
the transport or by `raise_for_status` on a non-success status), and the
`.ok` payload is the structure the code reads out of `response.json()`.
Python `KeyError` / `IndexError` from unguarded subscripts are modelled by the
other `PyErr` constructors; `dict.get(k, default)` is modelled by `Option`
with `Option.getD`.
-/

/-- Errors a run of the pipeline can terminate with.  `remote` models
`requests.exceptions.RequestException` (transport failure or the `HTTPError`
raised by `response.raise_for_status()` on a non-success status); `keyError`
and `indexError` model the uncaught Python exceptions from unguarded
subscripting of parsed JSON. -/
inductive PyErr where
  | remote (msg : String)
  | keyError (key : String)
  | indexError
deriving DecidableEq, Repr

/-- Constant `maxResults = 50` from line 12 of the source. -/
def maxResults : Nat := 50

/-! ### Channel Resolver: `get_playlist_id` (source lines 15-34) -/

/-- Shape read from the channels response:
`items[0]["contentDetails"]["relatedPlaylists"]["uploads"]`.  Every level is
`Option` because the code subscripts without checking presence. -/
structure RelatedPlaylists where
  uploads : Option String
deriving DecidableEq, Repr

/-- The `contentDetails` object of a channel item. -/
structure ChannelCD where
  relatedPlaylists : Option RelatedPlaylists
deriving DecidableEq, Repr

/-- One element of the channels response's `items` array. -/
structure ChannelItem where
  contentDetails : Option ChannelCD
deriving DecidableEq, Repr

/-- The parsed body of the channels response; `items` is `none` when the key
is absent (the code does `data["items"]`, a KeyError in that case). -/
structure ChannelResponse where
  items : Option (List ChannelItem)
deriving DecidableEq, Repr

/-- Resolver, source lines 15-34.  The argument is the outcome of the single
`requests.get` + `raise_for_status()` + `.json()` sequence.  The second
component of the result is the number of HTTP requests issued: the body
contains exactly one `requests.get`, executed exactly once per call, so it is
`1` whether the call succeeds or fails.  The `try/except RequestException`
wrapper re-raises unchanged (lines 33-34), so it is a no-op; the `print`
diagnostic has no modelled effect. -/
def get_playlist_id (resp : Except PyErr ChannelResponse) :
    Except PyErr String × Nat :=
  ( match resp with
    | .error e => .error e
    | .ok data =>
      match data.items with
      | none => .error (.keyError "items")
      | some items =>
        match items with
        | [] => .error .indexError
        | channel_items :: _ =>
          match channel_items.contentDetails with
          | none => .error (.keyError "contentDetails")
          | some cd =>
            match cd.relatedPlaylists with
            | none => .error (.keyError "relatedPlaylists")
            | some rp =>
              match rp.uploads with
              | none => .error (.keyError "uploads")
              | some channel_playlistId => .ok channel_playlistId,
    1 )

/-! ### Collection Enumerator: `get_video_ids` (source lines 37-70) -/

/-- The `contentDetails` object of one playlistItems element, as read by
`item['contentDetails']['videoId']` (line 59). -/
structure PlaylistCD where
  videoId : String
deriving DecidableEq, Repr

/-- One element of a playlistItems page's `items` array. -/
structure PlaylistItem where
  contentDetails : PlaylistCD
deriving DecidableEq, Repr

/-- The parsed body of one playlistItems page.  `items` is `none` when the
key is absent — the code reads it with `data.get('items', [])` (line 58),
so absence is tolerated.  `nextPageToken` is read with
`data.get('nextPageToken')` (line 63). -/
structure Page where
  items : Option (List PlaylistItem)
  nextPageToken : Option String
deriving DecidableEq, Repr

/-- Python truthiness of the `pageToken` value: `None` and the empty string
are falsy (`if not pageToken: break`, line 64, and `if pageToken:`,
line 50). -/
def tokenPresent : Option String → Bool
  | none => false
  | some t => !(t == "")

/-- The ids appended from one page: `data.get('items', [])` iterated,
taking `item['contentDetails']['videoId']` from each (lines 58-60). -/
def page_ids (data : Page) : List String :=
  (data.items.getD []).map (fun item => item.contentDetails.videoId)

/-- Loop body of `get_video_ids` (lines 48-65).  `fetch` maps the current
`pageToken` query value (absent on the first iteration) to the outcome of
`requests.get` + `raise_for_status()` + `.json()` on the playlistItems URL.
The source loop is `while True`; the extra `fuel` argument bounds the number
of iterations the embedding unfolds, `none` meaning the loop did not finish
within `fuel` iterations.  The `Nat` in the result counts fetches performed.
The state threaded through is the accumulator `video_ids` and the current
`pageToken`, exactly the two loop variables of the source. -/
def get_video_ids_go (fetch : Option String → Except PyErr Page) :
    Nat → Option String → List String → Nat →
    Option (Except PyErr (List String × Nat))
  | 0, _, _, _ => none
  | fuel + 1, pageToken, video_ids, fetches =>
    match fetch pageToken with
    | .error e => some (.error e)
    | .ok data =>
      if tokenPresent data.nextPageToken then
        get_video_ids_go fetch fuel data.nextPageToken
          (video_ids ++ page_ids data) (fetches + 1)
      else
        some (.ok (video_ids ++ page_ids data, fetches + 1))

/-- Enumerator, source lines 37-70: starts with `video_ids = []` and
`pageToken = None`.  The `try/except RequestException` wrapper re-raises
unchanged (lines 69-70). -/
def get_video_ids (fetch : Option String → Except PyErr Page) (fuel : Nat) :
    Option (Except PyErr (List String × Nat)) :=
  get_video_ids_go fetch fuel none [] 0

/-- A finite simulated remote for the Enumerator: `simulates fetch tok pages`
holds when, starting from query token `tok`, `fetch` serves exactly the pages
of `pages` in order — each page but the last carries a truthy next-page
cursor under which `fetch` serves the following page, and the last page
carries no truthy cursor.  The loop always performs at least one fetch, so
the page list is non-empty. -/
def simulates (fetch : Option String → Except PyErr Page) :
    Option String → List Page → Prop
  | _, [] => False
  | tok, data :: rest =>
    fetch tok = .ok data ∧
    match rest with
    | [] => tokenPresent data.nextPageToken = false
    | q :: rest' =>
      tokenPresent data.nextPageToken = true ∧
      simulates fetch data.nextPageToken (q :: rest')

/-! ### Metadata Extractor: `extract_video_data` (source lines 73-117) -/

/-- The `statistics` part of a videos-endpoint item.  All three counters are
read with `.get(key, None)` (lines 107-109), so absence is tolerated and
surfaces as `none`. -/
structure Statistics where
  viewCount : Option String
  likeCount : Option String
  commentCount : Option String
deriving DecidableEq, Repr

/-- The `snippet` part of a videos-endpoint item; `title` and `publishedAt`
are subscripted without a default (lines 104-105). -/
structure Snippet where
  title : Option String
  publishedAt : Option String
deriving DecidableEq, Repr

/-- The `contentDetails` part of a videos-endpoint item; `duration` is
subscripted without a default (line 106). -/
structure ContentDetails where
  duration : Option String
deriving DecidableEq, Repr

/-- One element of a videos response's `items` array.  The four top-level
keys are subscripted without a default (lines 97-100). -/
structure VideoItem where
  id : Option String
  snippet : Option Snippet
  contentDetails : Option ContentDetails
  statistics : Option Statistics
deriving DecidableEq, Repr

/-- The parsed body of one videos response; `items` is read with
`data.get('items', [])` (line 96). -/
structure VideosResponse where
  items : Option (List VideoItem)
deriving DecidableEq, Repr

/-- The output unit, the dict literal of lines 102-110.  The seven keys are
always present; a counter whose source field was absent is `none`
(serialized as JSON `null`). -/
structure VideoRecord where
  video_id : String
  title : String
  publishedAt : String
  duration : String
  viewCount : Option String
  likeCount : Option String
  commentCount : Option String
deriving DecidableEq, Repr

/-- The dict literal of lines 102-110 as an ordered key/value list, in
Python dict insertion order; `some` values are JSON strings, `none` is JSON
`null`.  Every key is present in every record. -/
def record_json (r : VideoRecord) : List (String × Option String) :=
  [ ("video_id", some r.video_id),
    ("title", some r.title),
    ("publishedAt", some r.publishedAt),
    ("duration", some r.duration),
    ("viewCount", r.viewCount),
    ("likeCount", r.likeCount),
    ("commentCount", r.commentCount) ]

/-- Structural helper for `batch_list`: the extra first argument is an upper
bound on the number of remaining elements, so that the recursion is
structural and the function evaluates by kernel reduction.  With the bound
set to the list's length (as `batch_list` does) it computes exactly the
slices `video_id_list[i : i + batch_size]` for `i = 0, batch_size,
2*batch_size, ...` of the source generator. -/
def batch_list_go {α : Type} : Nat → List α → Nat → List (List α)
  | 0, _, _ => []
  | fuel + 1, video_id_list, batch_size =>
    if video_id_list.isEmpty then []
    else
      video_id_list.take batch_size ::
        batch_list_go fuel (video_id_list.drop batch_size) batch_size

/-- Batching helper, source lines 82-84:
`for i in range(0, len(video_id_list), batch_size): yield
video_id_list[i : i + batch_size]`.  The program only calls it with
`batch_size = maxResults = 50`; for `batch_size = 0` the source's `range`
raises `ValueError`, a case never reached and not modelled (the embedding
returns a junk value there). -/
def batch_list {α : Type} (video_id_list : List α) (batch_size : Nat) :
    List (List α) :=
  batch_list_go video_id_list.length video_id_list batch_size

/-- Record construction for one response item, lines 97-110.  Unguarded
subscripts surface as `keyError`s, in the source's evaluation order
(`id`, `snippet`, `contentDetails`, `statistics`, then `title`,
`publishedAt`, `duration` from the dict literal); the three counters use
`.get(_, None)` and never fail. -/
def extract_item (item : VideoItem) : Except PyErr VideoRecord :=
  match item.id with
  | none => .error (.keyError "id")
  | some video_id =>
    match item.snippet with
    | none => .error (.keyError "snippet")
    | some snippet =>
      match item.contentDetails with
      | none => .error (.keyError "contentDetails")
      | some contenDetails =>
        match item.statistics with
        | none => .error (.keyError "statistics")
        | some statistics =>
          match snippet.title with
          | none => .error (.keyError "title")
          | some title =>
            match snippet.publishedAt with
            | none => .error (.keyError "publishedAt")
            | some publishedAt =>
              match contenDetails.duration with
              | none => .error (.keyError "duration")
              | some duration =>
                .ok { video_id, title, publishedAt, duration,
                      viewCount := statistics.viewCount,
                      likeCount := statistics.likeCount,
                      commentCount := statistics.commentCount }

/-- The inner `for item in data.get('items', [])` loop (lines 96-112):
builds one record per item, appending in item order; the first uncaught
exception aborts the whole call. -/
def extract_items : List VideoItem → Except PyErr (List VideoRecord)
  | [] => .ok []
  | item :: rest =>
    match extract_item item with
    | .error e => .error e
    | .ok r =>
      match extract_items rest with
      | .error e => .error e
      | .ok rs => .ok (r :: rs)

/-- The outer `for batch in batch_list(video_ids, maxResults)` loop
(lines 87-112).  `fetch` maps the comma-joined id string
(`",".join(batch)`, line 88) to the outcome of `requests.get` +
`raise_for_status()` + `.json()` on the videos URL.  Records accumulate
across batches in batch order; the first failure aborts the whole call
with nothing returned. -/
def extract_batches (fetch : String → Except PyErr VideosResponse) :
    List (List String) → Except PyErr (List VideoRecord)
  | [] => .ok []
  | batch :: rest =>
    match fetch (String.intercalate "," batch) with
    | .error e => .error e
    | .ok data =>
      match extract_items (data.items.getD []) with
      | .error e => .error e
      | .ok recs =>
        match extract_batches fetch rest with
        | .error e => .error e
        | .ok more => .ok (recs ++ more)

/-- Extractor, source lines 73-117: batch the ids by `maxResults` and fold
the batches.  The `try/except RequestException` wrapper re-raises unchanged
(lines 116-117). -/
def extract_video_data (fetch : String → Except PyErr VideosResponse)
    (video_ids : List String) : Except PyErr (List VideoRecord) :=
  extract_batches fetch (batch_list video_ids maxResults)

/-! ### Persistence Writer: `save_to_json` (source lines 119-123) -/

/-- The single file write performed by the Writer: the target path and the
serialized record list.  Opening with mode `"w"` truncates, so a write
replaces any existing file at the path. -/
structure WriteEffect where
  path : String
  content : List VideoRecord
deriving DecidableEq, Repr

/-- Writer, source lines 119-123.  `today` is the ambient `date.today()`
rendered in ISO format, passed explicitly.  The result is the write effect
performed and the function's Python return value — the body has no `return`
statement, so that value is `None`, modelled as `(none : Option String)`. -/
def save_to_json (extracted_data : List VideoRecord) (today : String) :
    WriteEffect × Option String :=
  ( { path := "./data/YT_data_" ++ today ++ ".json",
      content := extracted_data },
    none )

/-! ### Pipeline glue: `__main__` (source lines 127-138) -/

/-- The four-step pipeline of lines 127-138.  `fetchChannel` is the channels
response; `fetchPage playlistId` serves playlistItems pages for the resolved
playlist; `fetchBatch` serves videos responses by joined id string.  The
result pairs the run outcome (`none` = enumeration fuel exhausted) with the
list of file writes performed: a failing run writes nothing. -/
def run_pipeline (fetchChannel : Except PyErr ChannelResponse)
    (fetchPage : String → Option String → Except PyErr Page)
    (fetchBatch : String → Except PyErr VideosResponse)
    (today : String) (fuel : Nat) :
    Option (Except PyErr Unit) × List WriteEffect :=
  match (get_playlist_id fetchChannel).1 with
  | .error e => (some (.error e), [])
  | .ok playlistId =>
    match get_video_ids (fetchPage playlistId) fuel with
    | none => (none, [])
    | some (.error e) => (some (.error e), [])
    | some (.ok (video_ids, _fetches)) =>
      match extract_video_data fetchBatch video_ids with
      | .error e => (some (.error e), [])
      | .ok video_data =>
        (some (.ok ()), [(save_to_json video_data today).1])

/-! ### Lemmas about the batching helper -/

theorem batch_list_go_nil {α : Type} (fuel n : Nat) :
    batch_list_go fuel ([] : List α) n = [] := by
  cases fuel <;> simp [batch_list_go]

theorem batch_list_go_join {α : Type} :
    ∀ (fuel : Nat) (l : List α) (n : Nat), l.length ≤ fuel → 0 < n →
      (batch_list_go fuel l n).flatten = l := by
  intro fuel
  induction fuel with
  | zero =>
    intro l n hl _
    have hnil : l = [] := List.length_eq_zero.mp (Nat.le_zero.mp hl)
    subst hnil
    simp [batch_list_go]
  | succ f ih =>
    intro l n hl hn
    cases l with
    | nil => simp [batch_list_go]
    | cons a as =>
      have hd : ((a :: as).drop n).length ≤ f := by
        simp only [List.length_drop, List.length_cons]
        simp only [List.length_cons] at hl
        omega
      simp only [batch_list_go, List.isEmpty_cons, Bool.false_eq_true,
        if_false, List.flatten_cons]
      rw [ih _ n hd hn, List.take_append_drop]

theorem batch_list_go_length {α : Type} :
    ∀ (fuel : Nat) (l : List α) (n : Nat), l.length ≤ fuel → 0 < n →
      (batch_list_go fuel l n).length = (l.length + n - 1) / n := by
  intro fuel
  induction fuel with
  | zero =>
    intro l n hl hn
    have hnil : l = [] := List.length_eq_zero.mp (Nat.le_zero.mp hl)
    subst hnil
    simp [batch_list_go, Nat.div_eq_of_lt (show n - 1 < n by omega)]
  | succ f ih =>
    intro l n hl hn
    cases l with
    | nil => simp [batch_list_go, Nat.div_eq_of_lt (show n - 1 < n by omega)]
    | cons a as =>
      have hd : ((a :: as).drop n).length ≤ f := by
        simp only [List.length_drop, List.length_cons]
        simp only [List.length_cons] at hl
        omega
      simp only [batch_list_go, List.isEmpty_cons, Bool.false_eq_true,
        if_false, List.length_cons]
      rw [ih _ n hd hn]
      simp only [List.length_drop, List.length_cons]
      by_cases hle : as.length + 1 ≤ n
      · have h0 : as.length + 1 - n = 0 := by omega
        rw [h0]
        have lhs : (0 + n - 1) / n = 0 := Nat.div_eq_of_lt (by omega)
        rw [lhs]
        have rhs : (as.length + 1 + n - 1) / n = 1 := by
          apply Nat.div_eq_of_lt_le <;> omega
        rw [rhs]
      · have h1 : as.length + 1 - n + n - 1 = as.length := by omega
        have h2 : as.length + 1 + n - 1 = as.length + n := by omega
        rw [h1, h2, Nat.add_div_right _ hn]

theorem batch_list_go_mem {α : Type} :
    ∀ (fuel : Nat) (l : List α) (n : Nat) (b : List α), 0 < n →
      b ∈ batch_list_go fuel l n → b.length ≤ n ∧ b ≠ [] := by
  intro fuel
  induction fuel with
  | zero =>
    intro l n b _ hb
    simp [batch_list_go] at hb
  | succ f ih =>
    intro l n b hn hb
    cases l with
    | nil => simp [batch_list_go] at hb
    | cons a as =>
      simp only [batch_list_go, List.isEmpty_cons, Bool.false_eq_true,
        if_false, List.mem_cons] at hb
      rcases hb with hb | hb
      · subst hb
        constructor
        · simp [List.length_take]
        · cases n with
          | zero => omega
          | succ m => simp [List.take_succ_cons]
      · exact ih _ n b hn hb

/-- C1: for every ordered sequence of video identifiers, `batch_list`
partitions it into consecutive, non-overlapping batches of at most 50
identifiers each, preserving input order and covering every identifier
exactly once (the concatenation of the batches is the input itself),
producing exactly ceil(len/50) batches; for the empty sequence it produces
no batches, and `extract_video_data` on the empty sequence yields the empty
result. -/
theorem claim1_batching_partition (ids : List String) :
    (batch_list ids maxResults).flatten = ids ∧
    (∀ b, b ∈ batch_list ids maxResults → b.length ≤ 50 ∧ b ≠ []) ∧
    (batch_list ids maxResults).length = (ids.length + 50 - 1) / 50 ∧
    batch_list ([] : List String) maxResults = [] ∧
    (∀ fetch, extract_video_data fetch [] = .ok []) :=
  ⟨batch_list_go_join _ _ _ (Nat.le_refl _) (by decide),
   fun b hb => batch_list_go_mem _ _ _ b (by decide) hb,
   batch_list_go_length _ _ _ (Nat.le_refl _) (by decide),
   rfl, fun _ => rfl⟩

/-- Witness for C1 at the concrete input `["a", "b"]`. -/
theorem claim1_batching_partition_witness :
    (batch_list ["a", "b"] maxResults).flatten = ["a", "b"] ∧
    ((["a", "b"] : List String).length ≤ 50 ∧ (["a", "b"] : List String) ≠ []) :=
  ⟨(claim1_batching_partition ["a", "b"]).1,
   (claim1_batching_partition ["a", "b"]).2.1 ["a", "b"] (by decide)⟩

/-! ### Lemmas about the enumeration loop -/

theorem get_video_ids_go_sim (fetch : Option String → Except PyErr Page) :
    ∀ (pages : List Page) (tok : Option String) (acc : List String)
      (cnt fuel : Nat),
      simulates fetch tok pages → pages.length ≤ fuel →
      get_video_ids_go fetch fuel tok acc cnt =
        some (.ok (acc ++ (pages.map page_ids).flatten,
          cnt + pages.length)) := by
  intro pages
  induction pages with
  | nil =>
    intro tok acc cnt fuel hsim _
    exact absurd hsim (by simp [simulates])
  | cons data rest ih =>
    intro tok acc cnt fuel hsim hfuel
    cases fuel with
    | zero => simp at hfuel
    | succ f =>
      cases rest with
      | nil =>
        obtain ⟨h1, h2⟩ := hsim
        simp [get_video_ids_go, h1, h2]
      | cons q rest' =>
        obtain ⟨h1, h2, h3⟩ := hsim
        have hf : (q :: rest').length ≤ f := by
          simp only [List.length_cons] at hfuel ⊢
          omega
        simp only [get_video_ids_go, h1, h2, if_true]
        rw [ih data.nextPageToken (acc ++ page_ids data) (cnt + 1) f h3 hf]
        simp [List.append_assoc]
        omega

/-- C2: for every finite simulated sequence of N pages (each page but the
last carrying a truthy next-page cursor, the last carrying none), the
Enumerator performs exactly N fetches and returns the concatenation of the
pages' video ids in page order, within each page in item order; it stops
exactly at the page with no cursor. -/
theorem claim2_pagination_enumeration
    (fetch : Option String → Except PyErr Page) (pages : List Page)
    (fuel : Nat) (hsim : simulates fetch none pages)
    (hfuel : pages.length ≤ fuel) :
    get_video_ids fetch fuel =
      some (.ok ((pages.map page_ids).flatten, pages.length)) := by
  have h := get_video_ids_go_sim fetch pages none [] 0 fuel hsim hfuel
  simpa [get_video_ids] using h

/-- Witness for C2: a concrete two-page playlist, pages `["v1", "v2"]` then
`["v3"]`, enumerated with exactly 2 fetches. -/
theorem claim2_pagination_enumeration_witness :
    get_video_ids
      (fun tok =>
        match tok with
        | none => .ok ⟨some [⟨⟨"v1"⟩⟩, ⟨⟨"v2"⟩⟩], some "T2"⟩
        | some _ => .ok ⟨some [⟨⟨"v3"⟩⟩], none⟩) 2 =
      some (.ok (["v1", "v2", "v3"], 2)) := by
  have h := claim2_pagination_enumeration
    (fun tok =>
      match tok with
      | none => .ok ⟨some [⟨⟨"v1"⟩⟩, ⟨⟨"v2"⟩⟩], some "T2"⟩
      | some _ => .ok ⟨some [⟨⟨"v3"⟩⟩], none⟩)
    [⟨some [⟨⟨"v1"⟩⟩, ⟨⟨"v2"⟩⟩], some "T2"⟩, ⟨some [⟨⟨"v3"⟩⟩], none⟩] 2
    ⟨rfl, by decide, rfl, rfl⟩ (by decide)
  simpa [page_ids] using h

/-- C10: a transport-successful page whose body lacks the `items` key is
treated as an empty page — the Enumerator appends no identifiers, does not
fail, and continues or terminates solely according to the presence of the
next-page cursor. -/
theorem claim10_missing_items_empty_page
    (fetch : Option String → Except PyErr Page) (fuel : Nat)
    (tok : Option String) (acc : List String) (cnt : Nat) (data : Page)
    (hf : fetch tok = .ok data) (hitems : data.items = none) :
    (tokenPresent data.nextPageToken = false →
      get_video_ids_go fetch (fuel + 1) tok acc cnt =
        some (.ok (acc, cnt + 1))) ∧
    (tokenPresent data.nextPageToken = true →
      get_video_ids_go fetch (fuel + 1) tok acc cnt =
        get_video_ids_go fetch fuel data.nextPageToken acc (cnt + 1)) := by
  constructor <;> intro h <;>
    simp [get_video_ids_go, hf, h, page_ids, hitems]

/-- Witness for C10: a cursorless page without `items` terminates with the
accumulator unchanged; a page without `items` but with cursor `"T"`
continues with the accumulator unchanged. -/
theorem claim10_missing_items_empty_page_witness :
    get_video_ids_go (fun _ => .ok ⟨none, none⟩) 1 none ["x"] 0 =
      some (.ok (["x"], 1)) ∧
    get_video_ids_go (fun _ => .ok ⟨none, some "T"⟩) 1 none ["x"] 0 =
      get_video_ids_go (fun _ => .ok ⟨none, some "T"⟩) 0 (some "T") ["x"] 1 :=
  ⟨(claim10_missing_items_empty_page (fun _ => .ok ⟨none, none⟩) 0 none
      ["x"] 0 ⟨none, none⟩ rfl rfl).1 rfl,
   (claim10_missing_items_empty_page (fun _ => .ok ⟨none, some "T"⟩) 0 none
      ["x"] 0 ⟨none, some "T"⟩ rfl rfl).2 (by decide)⟩

/-- C3: if any page fetch during enumeration, or any metadata batch fetch,
fails with a `RemoteRequestError`, the whole run fails with that same error,
accumulated partial results are not returned (the outcome carries only the
error), and no output file is written (the write list is empty). -/
theorem claim3_error_propagation
    (fetchChannel : Except PyErr ChannelResponse)
    (fetchPage : String → Option String → Except PyErr Page)
    (fetchBatch : String → Except PyErr VideosResponse)
    (today : String) (fuel : Nat) (playlistId msg : String)
    (hres : (get_playlist_id fetchChannel).1 = .ok playlistId) :
    (get_video_ids (fetchPage playlistId) fuel =
        some (.error (.remote msg)) →
      run_pipeline fetchChannel fetchPage fetchBatch today fuel =
        (some (.error (.remote msg)), [])) ∧
    (∀ ids fetches,
      get_video_ids (fetchPage playlistId) fuel = some (.ok (ids, fetches)) →
      extract_video_data fetchBatch ids = .error (.remote msg) →
      run_pipeline fetchChannel fetchPage fetchBatch today fuel =
        (some (.error (.remote msg)), [])) := by
  constructor
  · intro h
    simp [run_pipeline, hres, h]
  · intro ids fetches h1 h2
    simp [run_pipeline, hres, h1, h2]

/-- Witness for C3: a concrete run whose single metadata batch fetch fails
with HTTP 500; the run fails with that `remote` error and writes nothing. -/
theorem claim3_error_propagation_witness :
    run_pipeline (.ok ⟨some [⟨some ⟨some ⟨some "UU1"⟩⟩⟩]⟩)
      (fun _ _ => .ok ⟨some [⟨⟨"v1"⟩⟩], none⟩)
      (fun _ => .error (.remote "500")) "2026-10-12" 1 =
      (some (.error (.remote "500")), []) :=
  (claim3_error_propagation (.ok ⟨some [⟨some ⟨some ⟨some "UU1"⟩⟩⟩]⟩)
      (fun _ _ => .ok ⟨some [⟨⟨"v1"⟩⟩], none⟩)
      (fun _ => .error (.remote "500")) "2026-10-12" 1 "UU1" "500"
      rfl).2 ["v1"] 1 rfl rfl

/-- C4: a response item whose `statistics` object lacks `viewCount`,
`likeCount` or `commentCount` yields a record with an explicit `none`
(JSON `null`) marker under the corresponding key — never a failure and
never an omitted key: the serialized record always carries all seven keys
in dict order. -/
theorem claim4_missing_counters_null (i t p d : String)
    (v l c : Option String) :
    extract_item ⟨some i, some ⟨some t, some p⟩, some ⟨some d⟩,
        some ⟨v, l, c⟩⟩ = .ok ⟨i, t, p, d, v, l, c⟩ ∧
    (record_json ⟨i, t, p, d, v, l, c⟩).map Prod.fst =
      ["video_id", "title", "publishedAt", "duration",
       "viewCount", "likeCount", "commentCount"] ∧
    (v = none →
      ("viewCount", (none : Option String)) ∈
        record_json ⟨i, t, p, d, v, l, c⟩) ∧
    (l = none →
      ("likeCount", (none : Option String)) ∈
        record_json ⟨i, t, p, d, v, l, c⟩) ∧
    (c = none →
      ("commentCount", (none : Option String)) ∈
        record_json ⟨i, t, p, d, v, l, c⟩) := by
  refine ⟨rfl, rfl, ?_, ?_, ?_⟩ <;> intro h <;> subst h <;> simp [record_json]

/-- Witness for C4: a concrete item with `likeCount` and `commentCount`
absent extracts successfully, and its serialization carries
`("likeCount", null)`. -/
theorem claim4_missing_counters_null_witness :
    extract_item ⟨some "v3", some ⟨some "t", some "p"⟩, some ⟨some "PT1M"⟩,
        some ⟨some "7", none, none⟩⟩ =
      .ok ⟨"v3", "t", "p", "PT1M", some "7", none, none⟩ ∧
    ("likeCount", (none : Option String)) ∈
      record_json ⟨"v3", "t", "p", "PT1M", some "7", none, none⟩ :=
  ⟨(claim4_missing_counters_null "v3" "t" "p" "PT1M" (some "7")
      none none).1,
   (claim4_missing_counters_null "v3" "t" "p" "PT1M" (some "7")
      none none).2.2.2.1 rfl⟩

/-- C5: the Resolver performs exactly one request and returns the
uploads-collection id taken from the first channel item of the response,
regardless of how many further items the response contains. -/
theorem claim5_resolver_first_item (u : String) (rest : List ChannelItem) :
    get_playlist_id (.ok ⟨some (⟨some ⟨some ⟨some u⟩⟩⟩ :: rest)⟩) =
      (.ok u, 1) :=
  rfl

/-! ### Lemmas for the Extractor on a per-id faithful remote -/

theorem extract_items_map (itemOf : String → VideoItem)
    (recOf : String → VideoRecord) :
    ∀ (b : List String),
      (∀ i ∈ b, extract_item (itemOf i) = .ok (recOf i)) →
      extract_items (b.map itemOf) = .ok (b.map recOf) := by
  intro b
  induction b with
  | nil => intro _; rfl
  | cons a as ih =>
    intro h
    have ha := h a (List.mem_cons_self a as)
    have hrest := ih (fun i hi => h i (List.mem_cons_of_mem a hi))
    simp [extract_items, ha, hrest]

theorem extract_batches_map (fetch : String → Except PyErr VideosResponse)
    (itemOf : String → VideoItem) (recOf : String → VideoRecord) :
    ∀ (bs : List (List String)),
      (∀ b ∈ bs,
        fetch (String.intercalate "," b) = .ok ⟨some (b.map itemOf)⟩) →
      (∀ i ∈ bs.flatten, extract_item (itemOf i) = .ok (recOf i)) →
      extract_batches fetch bs = .ok (bs.flatten.map recOf) := by
  intro bs
  induction bs with
  | nil => intro _ _; rfl
  | cons b rest ih =>
    intro hf hi
    have h1 := hf b (List.mem_cons_self b rest)
    have h2 : extract_items (b.map itemOf) = .ok (b.map recOf) :=
      extract_items_map itemOf recOf b (fun i hib => hi i (by
        simp only [List.flatten_cons, List.mem_append]
        exact Or.inl hib))
    have h3 := ih (fun x hx => hf x (List.mem_cons_of_mem b hx))
      (fun i hif => hi i (by
        simp only [List.flatten_cons, List.mem_append]
        exact Or.inr hif))
    simp [extract_batches, h1, h2, h3]

/-- C6: given a remote that answers each batch request with exactly one
well-formed item per requested id, in batch order, the Extractor produces
exactly one `VideoRecord` per input `VideoId`, and the output order follows
the order in which the ids were discovered. -/
theorem claim6_one_record_per_id
    (fetch : String → Except PyErr VideosResponse)
    (itemOf : String → VideoItem) (recOf : String → VideoRecord)
    (ids : List String)
    (hfetch : ∀ b ∈ batch_list ids maxResults,
      fetch (String.intercalate "," b) = .ok ⟨some (b.map itemOf)⟩)
    (hitem : ∀ i ∈ ids, extract_item (itemOf i) = .ok (recOf i)) :
    extract_video_data fetch ids = .ok (ids.map recOf) := by
  have hj : (batch_list ids maxResults).flatten = ids :=
    batch_list_go_join _ _ _ (Nat.le_refl _) (by decide)
  have h := extract_batches_map fetch itemOf recOf
    (batch_list ids maxResults) hfetch (by rw [hj]; exact hitem)
  rw [show extract_video_data fetch ids =
        extract_batches fetch (batch_list ids maxResults) from rfl,
    h, hj]

/-- Witness for C6 at the concrete input `["v1"]` with a one-item remote
response. -/
theorem claim6_one_record_per_id_witness :
    extract_video_data
      (fun _ => .ok ⟨some [⟨some "v1", some ⟨some "t", some "p"⟩,
          some ⟨some "PT1M"⟩, some ⟨none, none, none⟩⟩]⟩) ["v1"] =
      .ok [⟨"v1", "t", "p", "PT1M", none, none, none⟩] := by
  have hbatch : batch_list ["v1"] maxResults = [["v1"]] := by decide
  have h := claim6_one_record_per_id
    (fun _ => .ok ⟨some [⟨some "v1", some ⟨some "t", some "p"⟩,
        some ⟨some "PT1M"⟩, some ⟨none, none, none⟩⟩]⟩)
    (fun i => ⟨some i, some ⟨some "t", some "p"⟩, some ⟨some "PT1M"⟩,
        some ⟨none, none, none⟩⟩)
    (fun i => ⟨i, "t", "p", "PT1M", none, none, none⟩) ["v1"]
    (by
      intro b hb
      rw [hbatch] at hb
      have hb' : b = ["v1"] := by simpa using hb
      subst hb'
      rfl)
    (by
      intro i hi
      have hi' : i = "v1" := by simpa using hi
      subst hi'
      rfl)
  simpa using h

/-- C7 counterexample: the Writer does not return the output file path to
the caller — at the concrete input `[]`, `"2026-10-12"` its Python return
value is `None` (`none`), not the path
`"./data/YT_data_2026-10-12.json"`. -/
theorem claim7_writer_counterexample :
    (save_to_json [] "2026-10-12").2 = none ∧
    (save_to_json [] "2026-10-12").2 ≠
      some "./data/YT_data_2026-10-12.json" :=
  ⟨rfl, by simp [save_to_json]⟩

/-- C7 amended: the Writer, given an ordered sequence of `VideoRecord`s,
performs exactly one file write, at path `./data/YT_data_<date>.json`
parameterized by the current calendar date — the path depends only on the
date, so a prior same-day file is overwritten — with the full record
sequence as content; it returns `None` (no value) to the caller, not the
file path. -/
theorem claim7_writer_amended (records others : List VideoRecord)
    (today : String) :
    save_to_json records today =
      (⟨"./data/YT_data_" ++ today ++ ".json", records⟩, none) ∧
    (save_to_json records today).1.path =
      (save_to_json others today).1.path :=
  ⟨rfl, rfl⟩

/-- C8: the Extractor is deterministic — two runs with the same input id
list and extensionally identical remote responses produce identical result
lists (same records, same order, same values). -/
theorem claim8_extractor_deterministic
    (fetch1 fetch2 : String → Except PyErr VideosResponse)
    (ids1 ids2 : List String) (hids : ids1 = ids2)
    (hfetch : ∀ s, fetch1 s = fetch2 s) :
    extract_video_data fetch1 ids1 = extract_video_data fetch2 ids2 := by
  subst hids
  rw [funext hfetch]

/-- Witness for C8: two textually separate runs on `["v1"]` with the same
remote agree. -/
theorem claim8_extractor_deterministic_witness :
    extract_video_data (fun _ => .ok ⟨some []⟩) ["v1"] =
      extract_video_data (fun _ => .ok ⟨some []⟩) ["v1"] :=
  claim8_extractor_deterministic (fun _ => .ok ⟨some []⟩)
    (fun _ => .ok ⟨some []⟩) ["v1"] ["v1"] rfl (fun _ => rfl)

/-- C9: only the three counter fields are defaulted — an item lacking the
whole `snippet`, `contentDetails` or `statistics` object, or lacking
`title`, `publishedAt` or `duration` inside them, makes extraction fail
with an uncaught key-lookup error, which is never equal to a
`RemoteRequestError`; such a failure propagates out of
`extract_video_data`. -/
theorem claim9_missing_required_key_error
    (i t p : String) (sn : Snippet) (cd : ContentDetails) (st : Statistics)
    (fetch : String → Except PyErr VideosResponse) (ids : List String)
    (b : List String) (rest : List (List String)) (item : VideoItem)
    (items : List VideoItem)
    (hb : batch_list ids maxResults = b :: rest)
    (hfetch : fetch (String.intercalate "," b) = .ok ⟨some (item :: items)⟩)
    (hid : item.id = some i) (hsn : item.snippet = none) :
    extract_item ⟨some i, none, some cd, some st⟩ =
      .error (.keyError "snippet") ∧
    extract_item ⟨some i, some sn, none, some st⟩ =
      .error (.keyError "contentDetails") ∧
    extract_item ⟨some i, some sn, some cd, none⟩ =
      .error (.keyError "statistics") ∧
    extract_item ⟨some i, some ⟨none, some p⟩, some cd, some st⟩ =
      .error (.keyError "title") ∧
    extract_item ⟨some i, some ⟨some t, none⟩, some cd, some st⟩ =
      .error (.keyError "publishedAt") ∧
    extract_item ⟨some i, some ⟨some t, some p⟩, some ⟨none⟩, some st⟩ =
      .error (.keyError "duration") ∧
    (∀ (k m : String), PyErr.keyError k ≠ PyErr.remote m) ∧
    extract_video_data fetch ids = .error (.keyError "snippet") := by
  refine ⟨rfl, rfl, rfl, rfl, rfl, rfl, fun k m h => PyErr.noConfusion h, ?_⟩
  rw [show extract_video_data fetch ids =
        extract_batches fetch (batch_list ids maxResults) from rfl, hb]
  simp [extract_batches, hfetch, extract_items, extract_item, hid, hsn]

/-- Witness for C9: a response item for `"v1"` lacking its `snippet` makes
the whole extraction fail with `keyError "snippet"`. -/
theorem claim9_missing_required_key_error_witness :
    extract_video_data
      (fun _ => .ok ⟨some [⟨some "v1", none, none, none⟩]⟩) ["v1"] =
      .error (.keyError "snippet") :=
  (claim9_missing_required_key_error "v1" "t" "p" ⟨some "t", some "p"⟩
      ⟨some "d"⟩ ⟨none, none, none⟩
      (fun _ => .ok ⟨some [⟨some "v1", none, none, none⟩]⟩) ["v1"] ["v1"] []
      ⟨some "v1", none, none, none⟩ []
      (by decide) rfl rfl rfl).2.2.2.2.2.2.2
